import Mathlib

/-!
Verification of `netbox/project-static/bundle.js`, a build orchestration
script.  The script is embedded shallowly: external build calls
(`esbuild.build`, `fast-glob`, PurgeCSS) are abstracted as oracles, while
everything the script itself computes — configuration objects, CLI flag
dispatch, console logging, the try/catch structure, and the plugin's file
writes — is translated directly from the source.
-/

namespace Bundle

/-- A console event emitted by the script: `out` models `console.log`
(standard output), `err` models `console.error` (standard error). -/
inductive LogEvent where
  | out (msg : String)
  | err (msg : String)
  deriving DecidableEq, Repr

/-- Outcome of one external `esbuild.build(...)` call as observed by the
script: either the awaited promise rejects (`thrown`), or it resolves with a
result whose `errors` array is modelled as a list of messages. -/
inductive BuildOutcome where
  | thrown (e : String)
  | resolved (errors : List String)
  deriving DecidableEq, Repr

/-- Outcomes of the three external build calls the script can make (one per
bundle phase function). -/
structure Oracle where
  graphiql : BuildOutcome
  netbox : BuildOutcome
  styles : BuildOutcome
  deriving DecidableEq, Repr

/-- `try { body } catch (err) { console.error(err) }`: a body that throws is
replaced by a single standard-error log, and the function returns normally. -/
def catchLog (body : Except String (List LogEvent)) : List LogEvent :=
  match body with
  | .error e => [.err e]
  | .ok logs => logs

/-- JS `String.prototype.split` with a one-character separator, on the
character list of the string: `"".split(sep)` is `[""]`, and separators at
either end produce empty fields, exactly as in JS. -/
def splitChar (sep : Char) : List Char → List (List Char)
  | [] => [[]]
  | c :: cs =>
      if c = sep then [] :: splitChar sep cs
      else
        match splitChar sep cs with
        | [] => [[c]]
        | h :: t => (c :: h) :: t

/-- `sourceName.split('/')[1]`, as used in the completion-message loops; a
missing index would render as `undefined` in the template literal. -/
def splitSecond (sourceName : String) : String :=
  match (splitChar '/' sourceName.data).get? 1 with
  | some cs => String.mk cs
  | none => "undefined"

/-- The completion message template shared by the `bundleNetBox` and
`bundleStyles` loops: `✅ Bundled source file '<source>' to '<target><ext>'`. -/
def completionMsg (source targetName ext : String) : String :=
  "✅ Bundled source file '" ++ source ++ "' to '" ++ targetName ++ ext ++ "'"

/-- The literal completion message logged by `bundleGraphIQL`. -/
def graphiqlCompletionMsg : String :=
  "✅ Bundled source file 'netbox-graphiql/index.ts' to 'graphiql.js'"

/-- Body of `bundleGraphIQL` before the enclosing try/catch: await the build;
if it resolves with zero errors, log the single completion message. -/
def bundleGraphIQLBody (o : BuildOutcome) : Except String (List LogEvent) :=
  match o with
  | .thrown e => .error e
  | .resolved errors =>
      .ok (if errors.length = 0 then [.out graphiqlCompletionMsg] else [])

/-- `bundleGraphIQL`: the body wrapped in try/catch. -/
def bundleGraphIQL (o : BuildOutcome) : List LogEvent :=
  catchLog (bundleGraphIQLBody o)

/-- The `entryPoints` object of `bundleNetBox`, in source order
(output name, source path). -/
def netboxEntryPoints : List (String × String) :=
  [("netbox", "src/index.ts"),
   ("lldp", "src/device/lldp.ts"),
   ("config", "src/device/config.ts"),
   ("status", "src/device/status.ts")]

/-- Body of `bundleNetBox` before the try/catch: on a resolved build with zero
errors, log one message per entry point, naming `sourceName.split('/')[1]`
and `<targetName>.js`. -/
def bundleNetBoxBody (o : BuildOutcome) : Except String (List LogEvent) :=
  match o with
  | .thrown e => .error e
  | .resolved errors =>
      .ok (if errors.length = 0 then
        netboxEntryPoints.map (fun p => .out (completionMsg (splitSecond p.2) p.1 ".js"))
      else [])

/-- `bundleNetBox`: the body wrapped in try/catch. -/
def bundleNetBox (o : BuildOutcome) : List LogEvent :=
  catchLog (bundleNetBoxBody o)

/-- `bundleScripts`: `for (const bundle of [bundleNetBox, bundleGraphIQL]) await bundle()`. -/
def bundleScripts (o : Oracle) : List LogEvent :=
  bundleNetBox o.netbox ++ bundleGraphIQL o.graphiql

/-- The `entryPoints` object of `bundleStyles`, in source order. -/
def styleEntryPoints : List (String × String) :=
  [("netbox-external", "styles/_external.scss"),
   ("netbox-light", "styles/_light.scss"),
   ("netbox-dark", "styles/_dark.scss"),
   ("netbox-print", "styles/_print.scss"),
   ("rack_elevation", "styles/_rack_elevation.scss"),
   ("cable_trace", "styles/_cable_trace.scss"),
   ("graphiql", "netbox-graphiql/graphiql.scss")]

/-- The options object passed to `sassPlugin`: `outputStyle: 'compressed'`,
and `cache: false` added only when ARGS includes `--no-cache` (`none` models
the property being absent). -/
structure SassPluginOptions where
  outputStyle : String
  cache : Option Bool
  deriving DecidableEq, Repr

/-- `pluginOptions` as constructed by `bundleStyles` from the CLI arguments. -/
def stylePluginOptions (args : List String) : SassPluginOptions :=
  { outputStyle := "compressed",
    cache := if args.contains "--no-cache" then some false else none }

/-- The parts of the esbuild request constructed by `bundleStyles` that the
script itself determines (the spread of the shared `options` record plus the
overrides written at the call site). -/
structure StyleBuildConfig where
  sourcemap : Bool
  metafile : Bool
  entryPoints : List (String × String)
  pluginOptions : SassPluginOptions
  deriving DecidableEq, Repr

/-- The esbuild request of `bundleStyles`: sourcemaps disabled for styles,
`metafile: true`, the fixed style entry points, and the sass plugin options
derived from the CLI arguments. -/
def styleBuildConfig (args : List String) : StyleBuildConfig :=
  { sourcemap := false,
    metafile := true,
    entryPoints := styleEntryPoints,
    pluginOptions := stylePluginOptions args }

/-- Body of `bundleStyles` before the try/catch: build the configuration,
await the build, and on zero errors log one message per style entry point. -/
def bundleStylesBody (args : List String) (o : BuildOutcome) : Except String (List LogEvent) :=
  match o with
  | .thrown e => .error e
  | .resolved errors =>
      .ok (if errors.length = 0 then
        (styleBuildConfig args).entryPoints.map
          (fun p => .out (completionMsg (splitSecond p.2) p.1 ".css"))
      else [])

/-- `bundleStyles`: the body wrapped in try/catch. -/
def bundleStyles (args : List String) (o : BuildOutcome) : List LogEvent :=
  catchLog (bundleStylesBody args o)

/-- `bundleAll`: dispatch on the CLI flags — `--styles` restricts to the style
phase, otherwise `--scripts` restricts to the script phase, otherwise both
phases run in sequence (styles awaited first, then scripts). -/
def bundleAll (args : List String) (o : Oracle) : List LogEvent :=
  if args.contains "--styles" then bundleStyles args o.styles
  else if args.contains "--scripts" then bundleScripts o
  else bundleStyles args o.styles ++ bundleScripts o

/-- `bundleStyles` at the exception level: because the whole body sits inside
try/catch, the phase always resolves with its log trace. -/
def bundleStylesE (args : List String) (o : BuildOutcome) : Except String (List LogEvent) :=
  .ok (catchLog (bundleStylesBody args o))

/-- `bundleScripts` at the exception level: both script phases catch their own
errors, so the loop always resolves. -/
def bundleScriptsE (o : Oracle) : Except String (List LogEvent) :=
  .ok (bundleNetBox o.netbox ++ bundleGraphIQL o.graphiql)

/-- `bundleAll` at the exception level: the top-level call has no try/catch of
its own, so an error in a phase would propagate out of it — the phases it
awaits, however, always resolve. -/
def bundleAllE (args : List String) (o : Oracle) : Except String (List LogEvent) :=
  if args.contains "--styles" then bundleStylesE args o.styles
  else if args.contains "--scripts" then bundleScriptsE o
  else do
    let s ← bundleStylesE args o.styles
    let j ← bundleScriptsE o
    pure (s ++ j)

/-- The process exit code: `bundleAll()` is invoked at top level, so the
process fails (nonzero code, unhandled rejection) exactly when `bundleAll`
itself rejects; otherwise the script exits normally with code 0. -/
def processExitCode (args : List String) (o : Oracle) : Nat :=
  match bundleAllE args o with
  | .ok _ => 0
  | .error _ => 1

/-- The error message thrown by the purgecss plugin's setup function when the
build's initial options lack a truthy `metafile`. -/
def metafileError : String :=
  "`metafile` must be set to true in esbuild configuration"

/-- The guard at the top of the purgecss plugin's setup function:
`if (!build.initialOptions.metafile) throw new Error(...)`. -/
def purgecssSetupCheck (metafile : Bool) : Except String Unit :=
  if !metafile then .error metafileError else .ok ()

/-- The fixed content glob patterns the plugin's onEnd callback passes to
`fast-glob` (HTML, Python, TypeScript sources and the bootstrap/slim-select
module sources). -/
def purgecssContentPatterns : List String :=
  ["../../**/*.html",
   "../../**/*.py",
   "./src/**/*.ts",
   "./node_modules/bootstrap/js/src/*.\x7bjs,ts\x7d",
   "./node_modules/slim-select/src/**/*.\x7bjs,ts\x7d"]

/-- The options record passed to `fast-glob` alongside the patterns. -/
structure GlobOptions where
  ignore : List String
  absolute : Bool
  deriving DecidableEq, Repr

/-- The fixed glob options of the onEnd callback: exclude `test_*.py` files
and `__tests__` directories, return absolute paths. -/
def purgecssGlobOptions : GlobOptions :=
  { ignore := ["**/test_*.py", "**/__tests__/**"],
    absolute := true }

/-- The plugin's options parameter, as spread into the purge call. The source
uses only `safelist.greedy` (a list of regexes, modelled by their pattern
strings); `content` and `css` fields are representable so the override
behaviour of the spread `{{ ...options, content, css }}` is expressible. -/
structure PurgeOptions where
  safelistGreedy : List String := []
  content : Option (List String) := none
  css : Option (List String) := none
  deriving DecidableEq, Repr

/-- The argument record of `purgeCSS.purge(...)`. -/
structure PurgeRequest where
  safelistGreedy : List String
  content : List String
  css : List String
  deriving DecidableEq, Repr

/-- `purgeCSS.purge({ ...options, content, css })`: `content` and `css` are
written after the spread, so they override any values carried in `options`. -/
def purgeRequest (opts : PurgeOptions) (content css : List String) : PurgeRequest :=
  { safelistGreedy := opts.safelistGreedy,
    content := content,
    css := css }

/-- The request built by the plugin's onEnd callback: `css` is the metafile
output keys filtered to names ending in `.css`; `content` is the filesystem's
expansion (oracle `fsGlob`) of the fixed patterns under the fixed options. -/
def onEndPurgeRequest (fsGlob : List String → GlobOptions → List String)
    (opts : PurgeOptions) (outputKeys : List String) : PurgeRequest :=
  purgeRequest opts (fsGlob purgecssContentPatterns purgecssGlobOptions)
    (outputKeys.filter (fun k => k.endsWith ".css"))

/-- The safelist the style phase passes to the purgecss plugin: a greedy
safelist of the two regexes anchored at `ss-` and `dropdown-` prefixes. -/
def stylePurgeOptions : PurgeOptions :=
  { safelistGreedy := ["^ss-", "^dropdown-"] }

/-- A filesystem, as far as the plugin's write loop observes it: file path to
optional content. -/
def Fs : Type := String → Option String

/-- `fs.promises.writeFile(file, content)`. -/
def writeFile (file content : String) (fs : Fs) : Fs :=
  fun g => if g = file then some content else fs g

/-- The plugin's write loop: `for (const { file, css } of res) await
fs.promises.writeFile(file, css)`, over the purge result (file, css) pairs. -/
def applyPurgeResult (res : List (String × String)) (fs : Fs) : Fs :=
  res.foldl (fun acc r => writeFile r.1 r.2 acc) fs

/-- A sample oracle on which every build resolves with zero errors. -/
def sampleOracle : Oracle :=
  { graphiql := .resolved [], netbox := .resolved [], styles := .resolved [] }

/-- An argument list carrying both restricting flags. -/
def bothFlags : List String := ["--styles", "--scripts"]

/-- C1 fails as stated: with arguments containing both flags, the list
contains `--scripts`, yet `bundleAll` does not run only the script phase —
it runs only the style phase. -/
theorem bundleAll_scripts_clause_fails :
    "--scripts" ∈ bothFlags ∧
    bundleAll bothFlags sampleOracle ≠ bundleScripts sampleOracle ∧
    bundleAll bothFlags sampleOracle = bundleStyles bothFlags sampleOracle.styles := by
  refine ⟨by decide, ?_, by decide⟩
  intro h
  have hlen := congrArg List.length h
  revert hlen
  decide

/-- C1 (amended): `bundleAll` dispatches on the flags in order — if the
arguments contain `--styles`, only the style phase runs; otherwise, if they
contain `--scripts`, only the script phase runs; if they contain neither,
both phases run. -/
theorem bundleAll_dispatch (args : List String) (o : Oracle) :
    ("--styles" ∈ args →
      bundleAll args o = bundleStyles args o.styles) ∧
    ("--styles" ∉ args → "--scripts" ∈ args →
      bundleAll args o = bundleScripts o) ∧
    ("--styles" ∉ args → "--scripts" ∉ args →
      bundleAll args o = bundleStyles args o.styles ++ bundleScripts o) := by
  refine ⟨fun h => ?_, fun h1 h2 => ?_, fun h1 h2 => ?_⟩ <;> simp [bundleAll, *]

/-- Witness for C1 (amended) at the three concrete flag configurations. -/
theorem bundleAll_dispatch_witness :
    bundleAll ["--styles"] sampleOracle
      = bundleStyles ["--styles"] sampleOracle.styles ∧
    bundleAll ["--scripts"] sampleOracle = bundleScripts sampleOracle ∧
    bundleAll [] sampleOracle
      = bundleStyles [] sampleOracle.styles ++ bundleScripts sampleOracle :=
  ⟨(bundleAll_dispatch ["--styles"] sampleOracle).1 (by decide),
   (bundleAll_dispatch ["--scripts"] sampleOracle).2.1 (by decide) (by decide),
   (bundleAll_dispatch [] sampleOracle).2.2 (by decide) (by decide)⟩

/-- C2: an error thrown by the external build call inside any bundle phase is
caught within that phase and logged as a single standard-error event, the
phase returns normally, no error propagates out of `bundleAll`, and the
process exit code is 0, not a distinct failure code. -/
theorem phase_errors_caught (e : String) (args : List String) (o : Oracle) :
    bundleGraphIQL (.thrown e) = [.err e] ∧
    bundleNetBox (.thrown e) = [.err e] ∧
    bundleStyles args (.thrown e) = [.err e] ∧
    bundleAllE args o = .ok (bundleAll args o) ∧
    processExitCode args o = 0 := by
  have h4 : bundleAllE args o = .ok (bundleAll args o) := by
    unfold bundleAllE bundleAll bundleStylesE bundleScriptsE bundleStyles bundleScripts
    split_ifs <;> rfl
  refine ⟨rfl, rfl, rfl, h4, ?_⟩
  unfold processExitCode
  rw [h4]

/-- C3: when neither restricting flag is present, the emitted trace is the
full style-phase trace followed by the full script-phase trace — the style
phase is awaited to completion before the script phase starts. -/
theorem bundleAll_styles_before_scripts (args : List String) (o : Oracle)
    (h1 : "--styles" ∉ args)
    (h2 : "--scripts" ∉ args) :
    bundleAll args o = bundleStyles args o.styles ++ bundleScripts o := by
  simp [bundleAll, h1, h2]

/-- Witness for C3 at the empty argument list. -/
theorem bundleAll_styles_before_scripts_witness :
    bundleAll [] sampleOracle
      = bundleStyles [] sampleOracle.styles ++ bundleScripts sampleOracle :=
  bundleAll_styles_before_scripts [] sampleOracle (by decide) (by decide)

/-- C8: when the arguments contain both `--styles` and `--scripts`, the
`--styles` check takes precedence — only the style phase runs. -/
theorem styles_flag_precedence (args : List String) (o : Oracle)
    (h1 : "--styles" ∈ args)
    (h2 : "--scripts" ∈ args) :
    bundleAll args o = bundleStyles args o.styles := by
  simp [bundleAll, h1]

/-- Witness for C8 at the concrete argument list carrying both flags. -/
theorem styles_flag_precedence_witness :
    bundleAll bothFlags sampleOracle = bundleStyles bothFlags sampleOracle.styles :=
  styles_flag_precedence bothFlags sampleOracle (by decide) (by decide)

/-- C4: the onEnd callback forwards to PurgeCSS exactly the metafile output
keys ending in `.css` as the css list, together with the expansion of the
fixed, invocation-independent content patterns under the fixed glob options
(regardless of any content/css values carried by the plugin options). -/
theorem onEnd_purge_request_exact (fsGlob : List String → GlobOptions → List String)
    (opts : PurgeOptions) (outputKeys : List String) :
    (onEndPurgeRequest fsGlob opts outputKeys).css
      = outputKeys.filter (fun k => k.endsWith ".css") ∧
    (onEndPurgeRequest fsGlob opts outputKeys).content
      = fsGlob purgecssContentPatterns purgecssGlobOptions ∧
    purgecssContentPatterns
      = ["../../**/*.html", "../../**/*.py", "./src/**/*.ts",
         "./node_modules/bootstrap/js/src/*.\x7bjs,ts\x7d",
         "./node_modules/slim-select/src/**/*.\x7bjs,ts\x7d"] ∧
    purgecssGlobOptions = { ignore := ["**/test_*.py", "**/__tests__/**"], absolute := true } ∧
    (∀ keys' : List String,
      (onEndPurgeRequest fsGlob opts keys').content
        = (onEndPurgeRequest fsGlob opts outputKeys).content) :=
  ⟨rfl, rfl, rfl, rfl, fun _ => rfl⟩

/-- Files not named in the purge result are untouched by the write loop. -/
theorem applyPurgeResult_frame : ∀ (res : List (String × String)) (fs : Fs) (f : String),
    f ∉ res.map Prod.fst → applyPurgeResult res fs f = fs f
  | [], _, _, _ => rfl
  | a :: t, fs, f, h => by
      rw [List.map_cons, List.mem_cons] at h
      push_neg at h
      have hstep : applyPurgeResult (a :: t) fs f = applyPurgeResult t (writeFile a.1 a.2 fs) f := rfl
      rw [hstep, applyPurgeResult_frame t _ f h.2]
      simp [writeFile, h.1]

/-- Files named in the purge result end up holding the purged content, when
the result names each file once. -/
theorem applyPurgeResult_mem : ∀ (res : List (String × String)) (fs : Fs)
    (hnd : (res.map Prod.fst).Nodup) (f c : String), (f, c) ∈ res →
    applyPurgeResult res fs f = some c
  | [], _, _, _, _, h => by cases h
  | a :: t, fs, hnd, f, c, h => by
      rw [List.map_cons, List.nodup_cons] at hnd
      rcases List.mem_cons.mp h with h1 | h1
      · have ha : a = (f, c) := h1.symm
        subst ha
        have hf : f ∉ t.map Prod.fst := hnd.1
        calc applyPurgeResult ((f, c) :: t) fs f
            = applyPurgeResult t (writeFile f c fs) f := rfl
          _ = writeFile f c fs f := applyPurgeResult_frame t _ f hf
          _ = some c := by simp [writeFile]
      · exact applyPurgeResult_mem t (writeFile a.1 a.2 fs) hnd.2 f c h1

/-- C5: after the plugin's write loop, every file named in the purge result
holds the returned minimized content for it, and every other file is
unchanged. -/
theorem purge_writes_exactly_result (res : List (String × String)) (fs : Fs)
    (hnd : (res.map Prod.fst).Nodup) :
    (∀ f c, (f, c) ∈ res → applyPurgeResult res fs f = some c) ∧
    (∀ f, f ∉ res.map Prod.fst → applyPurgeResult res fs f = fs f) :=
  ⟨fun f c h => applyPurgeResult_mem res fs hnd f c h,
   fun f h => applyPurgeResult_frame res fs f h⟩

/-- A sample filesystem for the write-loop witness. -/
def sampleFs : Fs := fun _ => none

/-- A sample purge result for the write-loop witness. -/
def sampleRes : List (String × String) :=
  [("dist/netbox-light.css", "purged-light"), ("dist/netbox-dark.css", "purged-dark")]

/-- Witness for C5 on a concrete purge result and filesystem. -/
theorem purge_writes_exactly_result_witness :
    applyPurgeResult sampleRes sampleFs "dist/netbox-light.css" = some "purged-light" ∧
    applyPurgeResult sampleRes sampleFs "dist/graphiql.js" = sampleFs "dist/graphiql.js" :=
  ⟨(purge_writes_exactly_result sampleRes sampleFs (by decide)).1 _ _ (by decide),
   (purge_writes_exactly_result sampleRes sampleFs (by decide)).2 _ (by decide)⟩

/-- C6: the sass plugin cache option is `false` exactly when the arguments
contain `--no-cache` and absent otherwise; erasing the cache option recovers
the flag-free configuration, so no other option of the style build depends on
the flag (and the script phases never read the CLI arguments at all). -/
theorem no_cache_flag_only_affects_sass_cache (args args' : List String)
    (h : "--no-cache" ∈ args ↔ "--no-cache" ∈ args') :
    (styleBuildConfig args).pluginOptions.cache
      = (if args.contains "--no-cache" then some false else none) ∧
    (styleBuildConfig args).pluginOptions.outputStyle = "compressed" ∧
    styleBuildConfig args = styleBuildConfig args' ∧
    { styleBuildConfig args with
        pluginOptions := { (styleBuildConfig args).pluginOptions with cache := none } }
      = styleBuildConfig [] := by
  refine ⟨rfl, rfl, ?_, rfl⟩
  simp [styleBuildConfig, stylePluginOptions, h]

/-- Witness for C6: with the flag the cache is disabled, and two argument
lists agreeing on the flag give identical style configurations. -/
theorem no_cache_flag_only_affects_sass_cache_witness :
    (styleBuildConfig ["--no-cache"]).pluginOptions.cache = some false ∧
    styleBuildConfig ["--no-cache"] = styleBuildConfig ["--styles", "--no-cache"] := by
  constructor
  · have h1 :=
      (no_cache_flag_only_affects_sass_cache ["--no-cache"] ["--styles", "--no-cache"]
        (by decide)).1
    simpa using h1
  · exact
      (no_cache_flag_only_affects_sass_cache ["--no-cache"] ["--styles", "--no-cache"]
        (by decide)).2.2.1

/-- Modelled from the spec: a completion message "naming the source file and
the output file", where the source file is named by its file name (the final
path segment of the source path). -/
def specCompletionMsg (sourceFile targetFile : String) : String :=
  "✅ Bundled source file '" ++ sourceFile ++ "' to '" ++ targetFile ++ "'"

/-- Modelled from the spec: the per-entry completion log C7 describes for the
netbox script phase — one message per entry naming its source file. -/
def specNetBoxCompletionLogs : List LogEvent :=
  netboxEntryPoints.map (fun p =>
    .out (specCompletionMsg (String.mk ((splitChar '/' p.2.data).getLastD [])) (p.1 ++ ".js")))

/-- C7 fails as stated: on a clean build, the netbox phase's second message
names the directory `device`, not the source file `lldp.ts`, because the
message interpolates `sourceName.split('/')[1]`. -/
theorem netbox_completion_names_directory :
    bundleNetBox (.resolved []) ≠ specNetBoxCompletionLogs ∧
    (bundleNetBox (.resolved [])).get? 1
      = some (.out "✅ Bundled source file 'device' to 'lldp.js'") := by
  exact ⟨by decide, by decide⟩

/-- C7 (amended): when a phase's build resolves with zero errors, the script
logs exactly one completion message per entry point of that phase — the
graphiql message naming the full source path, the others naming the second
`/`-separated segment of the source path (the file name for the style
entries, the directory name for the nested device entries) and the output
file. -/
theorem completion_messages_per_entry (errs : List String) (args : List String)
    (h : errs.length = 0) :
    bundleGraphIQL (.resolved errs) = [.out graphiqlCompletionMsg] ∧
    bundleNetBox (.resolved errs)
      = netboxEntryPoints.map (fun p => .out (completionMsg (splitSecond p.2) p.1 ".js")) ∧
    bundleStyles args (.resolved errs)
      = styleEntryPoints.map (fun p => .out (completionMsg (splitSecond p.2) p.1 ".css")) ∧
    (bundleNetBox (.resolved errs)).length = netboxEntryPoints.length ∧
    (bundleStyles args (.resolved errs)).length = styleEntryPoints.length := by
  simp [bundleGraphIQL, bundleNetBox, bundleStyles, bundleGraphIQLBody,
    bundleNetBoxBody, bundleStylesBody, catchLog, styleBuildConfig, h]

/-- Witness for C7 (amended) at the empty error list. -/
theorem completion_messages_per_entry_witness :
    bundleGraphIQL (.resolved []) = [.out graphiqlCompletionMsg] ∧
    bundleNetBox (.resolved [])
      = netboxEntryPoints.map (fun p => .out (completionMsg (splitSecond p.2) p.1 ".js")) :=
  ⟨(completion_messages_per_entry [] [] rfl).1,
   (completion_messages_per_entry [] [] rfl).2.1⟩

/-- C9: the purgecss plugin's setup throws the metafile error whenever the
initial options lack a truthy metafile, and the branch is unreachable from
`bundleStyles`, whose configuration always sets `metafile: true`. -/
theorem purgecss_setup_metafile_guard (m : Bool) (args : List String)
    (h : m = false) :
    purgecssSetupCheck m = .error metafileError ∧
    (styleBuildConfig args).metafile = true ∧
    purgecssSetupCheck (styleBuildConfig args).metafile = .ok () := by
  subst h
  exact ⟨rfl, rfl, rfl⟩

/-- Witness for C9 at a concrete falsy metafile and the flag-free style
configuration. -/
theorem purgecss_setup_metafile_guard_witness :
    purgecssSetupCheck false = .error metafileError ∧
    (styleBuildConfig []).metafile = true ∧
    purgecssSetupCheck (styleBuildConfig []).metafile = .ok () :=
  purgecss_setup_metafile_guard false [] rfl

/-- C10: a build call that resolves with a non-empty errors array makes the
phase log nothing at all — no completion messages and no error message. -/
theorem resolved_errors_silent (errs : List String) (args : List String)
    (h : errs ≠ []) :
    bundleGraphIQL (.resolved errs) = [] ∧
    bundleNetBox (.resolved errs) = [] ∧
    bundleStyles args (.resolved errs) = [] := by
  have hl : ¬ errs.length = 0 := by simpa [List.length_eq_zero] using h
  simp [bundleGraphIQL, bundleNetBox, bundleStyles, bundleGraphIQLBody,
    bundleNetBoxBody, bundleStylesBody, catchLog, hl]

/-- Witness for C10 at a concrete one-element errors array. -/
theorem resolved_errors_silent_witness :
    bundleGraphIQL (.resolved ["boom"]) = [] ∧
    bundleNetBox (.resolved ["boom"]) = [] ∧
    bundleStyles [] (.resolved ["boom"]) = [] :=
  resolved_errors_silent ["boom"] [] (by decide)

end Bundle
